import Mathlib

/-!
Verification of the meal-planner notifier (`daily_meal_notifier.py` and
`public/utils/text_utils.py`) against its specification.

Dates are embedded as proleptic-Gregorian ordinals (`Nat`, day 1 =
January 1 of year 1, matching Python's `date.toordinal()`); the store and
the HTTP API are embedded as environment records whose operations return
`Except String` values (`.error e` models a raised exception whose
`str(e)` is `e`).
-/

set_option autoImplicit false

deriving instance DecidableEq for Except

namespace MealPlanner

/-! ## Date arithmetic and formatting

Python's `datetime` values are reduced to their date ordinal: the code
only ever uses the date part (`.weekday()`, `strftime` with date-only
directives, and whole-day `timedelta` arithmetic).
-/

/-- Python `date.weekday()`: Monday = 0 .. Sunday = 6.  Ordinal 1
(January 1, year 1) is a Monday, so the weekday is `(d - 1) % 7`. -/
def pyWeekday (d : Nat) : Nat := (d - 1) % 7

/-- Gregorian leap-year test. -/
def isLeap (y : Nat) : Bool := (y % 4 == 0 && y % 100 != 0) || y % 400 == 0

/-- Convert a date ordinal to `(year, month, day)` in the proleptic
Gregorian calendar, by the standard era-decomposition arithmetic
(shifting the epoch to March 1 of year 0 so that leap days fall at the
end of the shifted year). -/
def toYMD (n : Nat) : Nat × Nat × Nat :=
  let z := n + 305
  let era := z / 146097
  let doe := z % 146097
  let yoe := (doe - doe / 1460 + doe / 36524 - doe / 146096) / 365
  let doy := doe - (365 * yoe + yoe / 4 - yoe / 100)
  let mp := (5 * doy + 2) / 153
  let d := doy - (153 * mp + 2) / 5 + 1
  let m := if mp < 10 then mp + 3 else mp - 9
  let y := era * 400 + yoe + (if m ≤ 2 then 1 else 0)
  (y, m, d)

/-- English month names, as produced by `strftime('%B')`. -/
def monthName : Nat → String
  | 1 => "January"
  | 2 => "February"
  | 3 => "March"
  | 4 => "April"
  | 5 => "May"
  | 6 => "June"
  | 7 => "July"
  | 8 => "August"
  | 9 => "September"
  | 10 => "October"
  | 11 => "November"
  | 12 => "December"
  | _ => ""

/-- Zero-padded two-digit rendering, as produced by `strftime('%d')`. -/
def pad2 (n : Nat) : String := if n < 10 then "0" ++ toString n else toString n

/-- Python `today.strftime('%B %d, %Y')`: full month name, zero-padded
day of month, comma, year. -/
def format_date (n : Nat) : String :=
  let ymd := toYMD n
  monthName ymd.2.1 ++ " " ++ pad2 ymd.2.2 ++ ", " ++ toString ymd.1

/-- English weekday names, as produced by `strftime('%A')`. -/
def weekday_name (d : Nat) : String :=
  match pyWeekday d with
  | 0 => "Monday"
  | 1 => "Tuesday"
  | 2 => "Wednesday"
  | 3 => "Thursday"
  | 4 => "Friday"
  | 5 => "Saturday"
  | _ => "Sunday"

/-- Python `date - timedelta(days=date.weekday())`: the Monday that
starts the week `d` falls in. -/
def startOfWeek (d : Nat) : Nat := d - pyWeekday d

/-- Embedding of `get_week_range(date)` from `daily_meal_notifier.py`:
`start_of_week = date - timedelta(days=date.weekday())`,
`end_of_week = start_of_week + timedelta(days=6)`, rendered as
`"{start:%B %d, %Y} - {end:%B %d, %Y}"`. -/
def get_week_range (d : Nat) : String :=
  let start_of_week := d - pyWeekday d
  let end_of_week := start_of_week + 6
  format_date start_of_week ++ " - " ++ format_date end_of_week

/-! ## Meal lookup (`get_today_meal`)

The Firestore accesses are abstracted into an environment record.  A
fetch returning `.error e` models the client raising an exception whose
`str()` is `e`; `.ok none` models a snapshot with `exists == False`;
`.ok (some doc)` models a snapshot whose `to_dict()` is `doc`.
Documents are string-keyed association lists.  A stored meal-plan value
that is not a string is modelled by `MealEntry.nonStr msg`, where `msg`
is the `AttributeError` text that calling `.split` on it raises; a
recipe document missing the `name` or `ingredients` field is modelled by
an `Option` field whose `none` access raises `KeyError` (whose `str()`
is the quoted key name, as in Python).
-/

/-- One value of the week's meal-plan document: either a string of
comma-separated recipe ids, or a malformed non-string value on which
`.split(',')` raises an `AttributeError` with text `excMsg`. -/
inductive MealEntry where
  | str (s : String)
  | nonStr (excMsg : String)
  deriving DecidableEq

/-- A recipe document as returned by `to_dict()`; a `none` field means
the key is absent, so subscripting raises `KeyError`. -/
structure RecipeDoc where
  name : Option String
  ingredients : Option (List String)
  deriving DecidableEq

/-- The environment `get_today_meal` runs in: the current date (in
`America/Los_Angeles`, reduced to its ordinal) and the two Firestore
collection reads the function performs. -/
structure LookupEnv where
  today : Nat
  fetchMealPlan : String → Except String (Option (List (String × MealEntry)))
  fetchRecipe : String → Except String (Option RecipeDoc)

/-- Python `meal_data.get(day_of_week, '')`: dictionary lookup with the
empty string as default. -/
def dictGetEntry (doc : List (String × MealEntry)) (k : String) : MealEntry :=
  (doc.lookup k).getD (.str "")

/-- Helper for `pySplit`: walk the characters, collecting the current
segment (in reverse) and emitting it at each comma. -/
def splitCommaAux : List Char → List Char → List String
  | [], acc => [⟨acc.reverse⟩]
  | c :: rest, acc =>
    if c = ',' then ⟨acc.reverse⟩ :: splitCommaAux rest []
    else splitCommaAux rest (c :: acc)

/-- Python `s.split(',')`: split on every comma, keeping empty segments;
the result is never the empty list (`''.split(',') == ['']`). -/
def pySplit (s : String) : List String := splitCommaAux s.data []

/-- Python `value.split(',')` on a meal-plan entry: splits a string
value on commas; a non-string value raises `AttributeError`. -/
def pySplitComma : MealEntry → Except String (List String)
  | .str s => .ok (pySplit s)
  | .nonStr excMsg => .error excMsg

/-- Python `not recipe_ids or recipe_ids[0] == ''`: true when the list
is empty or its first element is the empty string. -/
def guardEmpty : List String → Bool
  | [] => true
  | first :: _ => first = ""

/-- Right-fold concatenation of a list of strings. -/
def concatS (l : List String) : String := l.foldr (fun a b => a ++ b) ""

/-- The block the loop body appends for one found recipe: marker line
with the name, an `Ingredients:` line, one bulleted line per ingredient,
then a blank-line separator. -/
def renderBlock (nm : String) (ings : List String) : String :=
  "📌 " ++ nm ++ "\n" ++ "Ingredients:\n" ++
    concatS (ings.map fun ingredient => "• " ++ ingredient ++ "\n") ++ "\n"

/-- Python `.strip()` whitespace test (space, tab, newline, carriage
return, vertical tab, form feed). -/
def isPySpace (c : Char) : Bool :=
  c = ' ' || c = '\t' || c = '\n' || c = '\r' || c = '\x0b' || c = '\x0c'

/-- Python `str.strip()` on the character list: drop whitespace from
both ends. -/
def pyStripList (l : List Char) : List Char :=
  ((l.dropWhile isPySpace).reverse.dropWhile isPySpace).reverse

/-- Python `message.strip()`. -/
def pyStrip (s : String) : String := ⟨pyStripList s.data⟩

/-- Result of running the body of `get_today_meal` (or its recipe loop):
the outcome (`.error e` = an exception with text `e` propagating to the
outer `except`), the recipe ids passed to `db.collection('recipes').document(...)`
in call order, and the `logging.warning` messages emitted. -/
structure LoopOut where
  result : Except String String
  fetched : List String
  warnings : List String

/-- The `for recipe_id in recipe_ids` loop of `get_today_meal`: fetch
each id; a found recipe appends its block to `message`; a missing one
logs `Recipe {id} not found` and continues; a fetch exception or a
`KeyError` on a missing field aborts the loop. -/
def process_recipes (env : LookupEnv) : List String → String → LoopOut
  | [], message => ⟨.ok message, [], []⟩
  | recipe_id :: rest, message =>
    match env.fetchRecipe recipe_id with
    | .error e => ⟨.error e, [recipe_id], []⟩
    | .ok none =>
      let out := process_recipes env rest message
      ⟨out.result, recipe_id :: out.fetched,
        ("Recipe " ++ recipe_id ++ " not found") :: out.warnings⟩
    | .ok (some recipe_data) =>
      match recipe_data.name with
      | none => ⟨.error "\x27name\x27", [recipe_id], []⟩
      | some nm =>
        match recipe_data.ingredients with
        | none => ⟨.error "\x27ingredients\x27", [recipe_id], []⟩
        | some ings =>
          let out := process_recipes env rest (message ++ renderBlock nm ings)
          ⟨out.result, recipe_id :: out.fetched, out.warnings⟩

/-- The header line of a populated day's message, before the trailing
blank line and the recipe blocks. -/
def headerLine (t : Nat) : String :=
  "🍽️ Today\x27s Meal (" ++ weekday_name t ++ ", " ++ format_date t ++ "):"

/-- The `No meal planned for {day_of_week}, {date_str}` message. -/
def noMealMsg (t : Nat) : String :=
  "No meal planned for " ++ weekday_name t ++ ", " ++ format_date t

/-- The body of `get_today_meal` (the `try` block), instrumented with
the recipe fetches performed and the warnings logged.  Steps: compute
weekday and date strings, compute the week-range key, fetch the plan
document, return the no-meal message when the document or the day's
entry is absent/empty, otherwise run the recipe loop under the header
and strip the result. -/
def get_today_meal_exc (env : LookupEnv) : LoopOut :=
  let day_of_week := weekday_name env.today
  let date_str := format_date env.today
  let week_range := get_week_range env.today
  match env.fetchMealPlan week_range with
  | .error e => ⟨.error e, [], []⟩
  | .ok none => ⟨.ok ("No meal planned for " ++ day_of_week ++ ", " ++ date_str), [], []⟩
  | .ok (some meal_data) =>
    match pySplitComma (dictGetEntry meal_data day_of_week) with
    | .error e => ⟨.error e, [], []⟩
    | .ok recipe_ids =>
      if guardEmpty recipe_ids then
        ⟨.ok ("No meal planned for " ++ day_of_week ++ ", " ++ date_str), [], []⟩
      else
        let message := "🍽️ Today\x27s Meal (" ++ day_of_week ++ ", " ++ date_str ++ "):\n\n"
        let out := process_recipes env recipe_ids message
        ⟨(match out.result with
          | .ok m => .ok (pyStrip m)
          | .error e => .error e), out.fetched, out.warnings⟩

/-- Embedding of `get_today_meal()`: the `try` body, with any exception
caught and rendered as `Error getting meal information: {e}`.  Total: it
always returns a string. -/
def get_today_meal (env : LookupEnv) : String :=
  match (get_today_meal_exc env).result with
  | .ok s => s
  | .error e => "Error getting meal information: " ++ e

/-- A recipe id's contribution to the final message: `some block` when
the fetch finds a document with both fields, `none` when the fetch
reports the document missing.  (Used to state the loop's behaviour on
runs where no exception is raised.) -/
def resolveBlock (env : LookupEnv) (recipe_id : String) : Option String :=
  match env.fetchRecipe recipe_id with
  | .ok (some ⟨some nm, some ings⟩) => some (renderBlock nm ings)
  | _ => none

/-- The warning logged for one recipe id, when the fetch reports the
document missing. -/
def warningOf (env : LookupEnv) (recipe_id : String) : Option String :=
  match env.fetchRecipe recipe_id with
  | .ok none => some ("Recipe " ++ recipe_id ++ " not found")
  | _ => none

/-! ## Messaging client (`text_utils.py`)

The two HTTP endpoints are abstracted into an environment record.
`getUpdates` models `requests.get(url).json()`: `.error e` is a raised
network/JSON exception, `.ok updates` the parsed `result` array where an
update's `chatId` is `some id` when the `message.chat.id` path exists
and `none` when some key on that path is missing (`KeyError`).
`sendMessage` models `requests.post(url, data)` followed by `.json()`:
`.error e` is a raised network/JSON exception, `.ok (status, body)` a
completed response with its HTTP status code and parsed body. -/

/-- One element of the `result` array of `getUpdates`. -/
structure TgUpdate where
  chatId : Option Int
  deriving DecidableEq

/-- The HTTP surface `text_utils.py` touches. -/
structure TgEnv where
  getUpdates : Except String (List TgUpdate)
  sendMessage : Int → String → Except String (Nat × String)

/-- The message of the exception `get_real_chat_id` raises when the
update list is empty (`IndexError`) or a key on the path is missing
(`KeyError`). -/
def chat_id_error_msg : String :=
  "❌ No chat ID found. Make sure you\x27ve messaged your bot."

/-- Embedding of `get_real_chat_id()`: fetch updates (a raised network
error propagates), then take `result[-1].message.chat.id`; `KeyError`
and `IndexError` are caught and re-raised as the fixed message. -/
def get_real_chat_id (env : TgEnv) : Except String Int :=
  match env.getUpdates with
  | .error e => .error e
  | .ok updates =>
    match updates.getLast? with
    | none => .error chat_id_error_msg
    | some u =>
      match u.chatId with
      | none => .error chat_id_error_msg
      | some cid => .ok cid

/-- One HTTP request issued by the messaging client. -/
inductive TgCall where
  | getUpdatesCall
  | sendMessageCall (chat_id : Int) (text : String)
  deriving DecidableEq

/-- Embedding of `send_telegram_message(message)`: resolve the chat id
(fresh lookup), POST the message, return the parsed response body.  The
second component records the HTTP calls issued, in order.  Note the
HTTP status of the send response is ignored: any completed response is
returned as a normal value. -/
def send_telegram_message (env : TgEnv) (message : String) :
    Except String String × List TgCall :=
  match get_real_chat_id env with
  | .error e => (.error e, [.getUpdatesCall])
  | .ok chat_id =>
    match env.sendMessage chat_id message with
    | .error e => (.error e, [.getUpdatesCall, .sendMessageCall chat_id message])
    | .ok resp => (.ok resp.2, [.getUpdatesCall, .sendMessageCall chat_id message])

/-! ## Daily job (`send_daily_meal`) -/

/-- The environment of `send_daily_meal`: the lookup environment and the
messaging send, abstracted to its raise/return behaviour as a function
of the text sent. -/
structure NotifierEnv where
  lookup : LookupEnv
  send : String → Except String Unit

/-- What one run of `send_daily_meal` did: the texts passed to
`send_telegram_message` in call order, and the log messages emitted. -/
structure SendOut where
  sends : List String
  logs : List String
  deriving DecidableEq

/-- Embedding of `send_daily_meal()`: get the meal message and send it;
on an exception `e` from the send, log
`Error sending daily meal notification: {e}` and attempt one secondary
send of that text prefixed with `❌ `, logging (and swallowing) any
failure of the secondary send.  Total: it never raises. -/
def send_daily_meal (env : NotifierEnv) : SendOut :=
  let message := get_today_meal env.lookup
  match env.send message with
  | .ok _ => ⟨[message], ["Successfully sent daily meal notification"]⟩
  | .error e =>
    let error_msg := "Error sending daily meal notification: " ++ e
    match env.send ("❌ " ++ error_msg) with
    | .ok _ => ⟨[message, "❌ " ++ error_msg], [error_msg]⟩
    | .error _ =>
        ⟨[message, "❌ " ++ error_msg], [error_msg, "Failed to send error notification"]⟩

/-! ## Concrete environments (Wednesday, March 12, 2025 = ordinal 739322)

These instantiate the abstract store/HTTP behaviours at the concrete
inputs used by the witness and counterexample theorems below.
-/

/-- The week-range key for the week of March 12, 2025. -/
def weekKey : String := "March 10, 2025 - March 16, 2025"

/-- A store whose every fetch raises a (simulated) network error. -/
def envStoreFail : LookupEnv :=
  ⟨739322, fun _ => .error "Simulated network error",
    fun _ => .error "Simulated network error"⟩

/-- A store with no meal-plan document for any week. -/
def envNoPlan : LookupEnv :=
  ⟨739322, fun _ => .ok none, fun _ => .ok none⟩

/-- The oatmeal recipe of the specification's worked scenario. -/
def oatmeal : RecipeDoc := ⟨some "Oatmeal", some ["oats", "milk"]⟩

/-- A second fully populated recipe. -/
def soup : RecipeDoc := ⟨some "Soup", some ["water", "salt"]⟩

/-- A store where Wednesday's entry is `r1,r2` and both recipes
resolve. -/
def envAllResolve : LookupEnv :=
  ⟨739322,
    fun k => if k = weekKey
      then .ok (some [("Wednesday", .str "r1,r2")]) else .ok none,
    fun r => if r = "r1" then .ok (some oatmeal)
      else if r = "r2" then .ok (some soup) else .ok none⟩

/-- A store where Wednesday's entry is `r1,r2` but only `r1` resolves
(the specification's worked scenario). -/
def envOneMissing : LookupEnv :=
  ⟨739322,
    fun k => if k = weekKey
      then .ok (some [("Wednesday", .str "r1,r2")]) else .ok none,
    fun r => if r = "r1" then .ok (some oatmeal) else .ok none⟩

/-- A store where Wednesday's entry is `a,` — the comma-split list is
`["a", ""]`, whose first element is non-empty — and where both `a` and
the empty id resolve. -/
def envEmptyId : LookupEnv :=
  ⟨739322,
    fun k => if k = weekKey
      then .ok (some [("Wednesday", .str "a,")]) else .ok none,
    fun r => if r = "a" then .ok (some ⟨some "Rice", some ["rice"]⟩)
      else if r = "" then .ok (some ⟨some "Ghost", some ["boo"]⟩)
      else .ok none⟩

/-- A store where Wednesday's entry is `r1,r2` but no recipe resolves. -/
def envNoneResolve : LookupEnv :=
  ⟨739322,
    fun k => if k = weekKey
      then .ok (some [("Wednesday", .str "r1,r2")]) else .ok none,
    fun _ => .ok none⟩

/-- A messaging API whose HTTP requests all raise a network error. -/
def tgEnvNetFail : TgEnv :=
  ⟨.error "Connection refused", fun _ _ => .error "Connection refused"⟩

/-- A messaging API with one inbound update whose send endpoint
completes with HTTP status 500 and a JSON error body. -/
def tgEnv500 : TgEnv :=
  ⟨.ok [⟨some 42⟩], fun _ _ => .ok (500, "telegram-error-body")⟩

/-- A notifier whose messaging send always raises. -/
def envSendFail : NotifierEnv :=
  ⟨envNoPlan, fun _ => .error "HTTP 500"⟩

/-! ## Helper lemmas about the recipe loop and message strings -/

theorem concatS_nil : concatS [] = "" := rfl

theorem concatS_cons (x : String) (xs : List String) :
    concatS (x :: xs) = x ++ concatS xs := rfl

/-- On a run where no recipe fetch raises and every found document has
both fields, the loop returns the input message extended with the blocks
of the found recipes, fetches exactly the given ids in order, and logs
one warning per missing recipe. -/
theorem process_recipes_all_ok (env : LookupEnv) (ids : List String) (message : String)
    (hok : ∀ r ∈ ids, env.fetchRecipe r = .ok none ∨
      ∃ nm ings, env.fetchRecipe r = .ok (some ⟨some nm, some ings⟩)) :
    process_recipes env ids message =
      ⟨.ok (message ++ concatS (ids.filterMap (resolveBlock env))),
        ids, ids.filterMap (warningOf env)⟩ := by
  induction ids generalizing message with
  | nil => simp [process_recipes, concatS, String.append_empty]
  | cons r rest ih =>
    have hrest : ∀ x ∈ rest, env.fetchRecipe x = .ok none ∨
        ∃ nm ings, env.fetchRecipe x = .ok (some ⟨some nm, some ings⟩) :=
      fun x hx => hok x (List.mem_cons_of_mem _ hx)
    rcases hok r (List.mem_cons_self _ _) with hnone | ⟨nm, ings, hsome⟩
    · simp [process_recipes, hnone, ih message hrest, resolveBlock, warningOf]
    · simp [process_recipes, hsome, ih (message ++ renderBlock nm ings) hrest,
        resolveBlock, warningOf, String.append_assoc, concatS_cons]

/-- When every id resolves to a document with both fields, the blocks
are exactly one per id, in order, and no warning is logged. -/
theorem filterMap_resolveBlock_all (env : LookupEnv) (ids : List String)
    (nameOf : String → String) (ingsOf : String → List String)
    (hres : ∀ r ∈ ids, env.fetchRecipe r = .ok (some ⟨some (nameOf r), some (ingsOf r)⟩)) :
    ids.filterMap (resolveBlock env) =
      ids.map (fun r => renderBlock (nameOf r) (ingsOf r)) ∧
    ids.filterMap (warningOf env) = [] := by
  induction ids with
  | nil => simp
  | cons r rest ih =>
    have h := hres r (List.mem_cons_self _ _)
    have := ih (fun x hx => hres x (List.mem_cons_of_mem _ hx))
    simp [resolveBlock, warningOf, h, this.1, this.2]

theorem header_split (t : Nat) :
    "🍽️ Today\x27s Meal (" ++ weekday_name t ++ ", " ++ format_date t ++ "):\n\n"
      = headerLine t ++ "\n\n" := by
  apply String.ext
  have h : ("):" : String).data ++ ("\n\n" : String).data = ("):\n\n" : String).data := rfl
  simp only [headerLine, String.data_append, List.append_assoc, h]

/-- Stripping a string that starts and ends with non-whitespace
characters removes exactly a trailing `"\n\n"`. -/
theorem pyStripList_append_nn (l : List Char) (c d : Char)
    (hc : l.head? = some c) (hcs : isPySpace c = false)
    (hd : l.getLast? = some d) (hds : isPySpace d = false) :
    pyStripList (l ++ ['\n', '\n']) = l := by
  cases l with
  | nil => simp at hc
  | cons a t =>
    have hac : a = c := by simpa using hc
    subst hac
    have h1 : ((a :: t) ++ ['\n', '\n']).dropWhile isPySpace
        = a :: (t ++ ['\n', '\n']) := by
      rw [List.cons_append, List.dropWhile_cons_of_neg (by simp [hcs])]
    obtain ⟨m, hm⟩ : ∃ m, (a :: t).reverse = d :: m := by
      have hrev : (a :: t).reverse.head? = some d := by
        rw [List.head?_reverse]; exact hd
      cases hx : (a :: t).reverse with
      | nil => rw [hx] at hrev; simp at hrev
      | cons b m =>
        rw [hx] at hrev
        simp only [List.head?_cons, Option.some.injEq] at hrev
        exact ⟨m, by rw [hrev]⟩
    have h2 : (a :: (t ++ ['\n', '\n'])).reverse = '\n' :: '\n' :: (a :: t).reverse := by
      rw [← List.cons_append, List.reverse_append]
      rfl
    unfold pyStripList
    rw [List.cons_append] at h1 ⊢
    rw [h1, h2, List.dropWhile_cons_of_pos (by decide),
      List.dropWhile_cons_of_pos (by decide), hm,
      List.dropWhile_cons_of_neg (by simp [hds]), ← hm, List.reverse_reverse]

theorem headerLine_head (t : Nat) : (headerLine t).data.head? = some '🍽' := by
  have h1 : ("🍽️ Today\x27s Meal (" : String).data.head? = some '🍽' := by decide
  simp [headerLine, String.data_append, List.head?_append, h1]

theorem headerLine_last (t : Nat) : (headerLine t).data.getLast? = some ':' := by
  simp only [headerLine, String.data_append]
  rw [List.getLast?_append_of_ne_nil _ (by decide)]
  decide

/-- Stripping the header message (header line plus blank separator)
leaves exactly the header line. -/
theorem pyStrip_header (t : Nat) : pyStrip (headerLine t ++ "\n\n") = headerLine t := by
  apply String.ext
  show pyStripList (headerLine t ++ "\n\n").data = (headerLine t).data
  have hdata : (headerLine t ++ "\n\n").data = (headerLine t).data ++ ['\n', '\n'] := by
    rw [String.data_append]
  rw [hdata]
  exact pyStripList_append_nn _ '🍽' ':' (headerLine_head t) (by decide)
    (headerLine_last t) (by decide)

/-- Two strings whose first characters differ are distinct. -/
theorem string_ne_of_head (s t : String) (h : s.data.head? ≠ t.data.head?) : s ≠ t :=
  fun e => h (congrArg (fun z => z.data.head?) e)

theorem noMeal_head (t : Nat) :
    ("No meal planned for " ++ weekday_name t ++ ", " ++ format_date t).data.head?
      = some 'N' := by
  have h1 : ("No meal planned for " : String).data.head? = some 'N' := by decide
  simp [String.data_append, List.head?_append, h1]

theorem errorMsg_head (details : String) :
    ("Error getting meal information: " ++ details).data.head? = some 'E' := by
  have h1 : ("Error getting meal information: " : String).data.head? = some 'E' := by decide
  simp [String.data_append, List.head?_append, h1]

/-- On the populated-entry path with no exception in the loop, the
function returns the stripped message, the fetch trace is exactly the
comma-split id list, and the warning log is one entry per missing
recipe. -/
theorem get_today_meal_run (env : LookupEnv) (doc : List (String × MealEntry))
    (s : String) (ids : List String)
    (hplan : env.fetchMealPlan (get_week_range env.today) = .ok (some doc))
    (hentry : dictGetEntry doc (weekday_name env.today) = .str s)
    (hids : pySplit s = ids)
    (hguard : guardEmpty ids = false)
    (hok : ∀ r ∈ ids, env.fetchRecipe r = .ok none ∨
      ∃ nm ings, env.fetchRecipe r = .ok (some ⟨some nm, some ings⟩)) :
    get_today_meal env =
      pyStrip (headerLine env.today ++ "\n\n" ++ concatS (ids.filterMap (resolveBlock env))) ∧
    (get_today_meal_exc env).fetched = ids ∧
    (get_today_meal_exc env).warnings = ids.filterMap (warningOf env) := by
  have hbody : get_today_meal_exc env =
      ⟨.ok (pyStrip (headerLine env.today ++ "\n\n" ++ concatS (ids.filterMap (resolveBlock env)))),
        ids, ids.filterMap (warningOf env)⟩ := by
    simp only [get_today_meal_exc, hplan, hentry, pySplitComma, hids, hguard,
      Bool.false_eq_true, if_false]
    rw [process_recipes_all_ok env ids _ hok, header_split]
  refine ⟨?_, ?_, ?_⟩ <;> simp [get_today_meal, hbody]

/-! ## Sanity checks against the specification's worked scenario

Ordinal 739322 is Wednesday, March 12, 2025 (`date(2025,3,12).toordinal()`).
-/

theorem format_date_scenario : format_date 739322 = "March 12, 2025" := by rfl

theorem weekday_name_scenario : weekday_name 739322 = "Wednesday" := by rfl

theorem week_range_scenario :
    get_week_range 739322 = "March 10, 2025 - March 16, 2025" := by rfl

/-! ## C2: the week range is the Monday-to-Sunday week containing the date -/

/-- C2.  For every (valid) date ordinal `d`, `get_week_range d` is the
string `"<start> - <end>"` where `start = startOfWeek d` is a Monday on
or before `d` with `d` within the following 7 days (hence the most
recent Monday on or before `d`), the end is `start + 6`, and both
endpoints are rendered by `format_date`, the `"<Month> <Day>, <Year>"`
format. -/
theorem get_week_range_correct (d : Nat) (h : 1 ≤ d) :
    get_week_range d =
      format_date (startOfWeek d) ++ " - " ++ format_date (startOfWeek d + 6) ∧
    pyWeekday (startOfWeek d) = 0 ∧
    startOfWeek d ≤ d ∧
    d < startOfWeek d + 7 := by
  refine ⟨rfl, ?_, ?_, ?_⟩ <;> · unfold startOfWeek pyWeekday; omega

/-- Witness for C2 at Wednesday, March 12, 2025. -/
theorem get_week_range_correct_witness :
    1 ≤ 739322 ∧
    (get_week_range 739322 =
        format_date (startOfWeek 739322) ++ " - " ++ format_date (startOfWeek 739322 + 6) ∧
      pyWeekday (startOfWeek 739322) = 0 ∧
      startOfWeek 739322 ≤ 739322 ∧
      739322 < startOfWeek 739322 + 7) :=
  ⟨by decide, get_week_range_correct 739322 (by decide)⟩

/-! ## C6: the week-range key is constant across a calendar week -/

/-- C6.  Any two dates lying in the same Monday-to-Sunday calendar week
(both within 7 days starting at a common Monday `M`) produce the same
week-range key. -/
theorem get_week_range_stable (M d₁ d₂ : Nat) (hM : 1 ≤ M)
    (hMon : pyWeekday M = 0) (h₁ : M ≤ d₁) (h₁7 : d₁ < M + 7)
    (h₂ : M ≤ d₂) (h₂7 : d₂ < M + 7) :
    get_week_range d₁ = get_week_range d₂ := by
  have e₁ : d₁ - pyWeekday d₁ = M := by unfold pyWeekday at *; omega
  have e₂ : d₂ - pyWeekday d₂ = M := by unfold pyWeekday at *; omega
  unfold get_week_range
  rw [e₁, e₂]

/-- Witness for C6: Wednesday and Saturday of the week of Monday,
March 10, 2025. -/
theorem get_week_range_stable_witness :
    1 ≤ 739320 ∧ pyWeekday 739320 = 0 ∧
    739320 ≤ 739322 ∧ 739322 < 739320 + 7 ∧
    739320 ≤ 739325 ∧ 739325 < 739320 + 7 ∧
    get_week_range 739322 = get_week_range 739325 :=
  ⟨by decide, by decide, by decide, by decide, by decide, by decide,
    get_week_range_stable 739320 739322 739325 (by decide) (by decide)
      (by decide) (by decide) (by decide) (by decide)⟩

/-! ## C1: `get_today_meal` always returns a string and never raises -/

/-- C1.  For every store behaviour — including fetches that raise,
malformed meal-plan documents (`MealEntry.nonStr`) and recipe documents
missing a field (`none` fields) — `get_today_meal` is a total function
into `String`; when the body runs without an exception its string is
returned, and when any step raises an exception `e` the returned string
is `"Error getting meal information: "` followed by the exception's
details. -/
theorem get_today_meal_never_raises (env : LookupEnv) :
    (∀ s, (get_today_meal_exc env).result = .ok s → get_today_meal env = s) ∧
    ∀ e, (get_today_meal_exc env).result = .error e →
      get_today_meal env = "Error getting meal information: " ++ e := by
  constructor <;> · intro x h; simp [get_today_meal, h]

/-- Witness for C1: a store whose fetch raises a simulated network
error. -/
theorem get_today_meal_never_raises_witness :
    (get_today_meal_exc envStoreFail).result = .error "Simulated network error" ∧
    get_today_meal envStoreFail =
      "Error getting meal information: Simulated network error" :=
  ⟨by decide,
    (get_today_meal_never_raises envStoreFail).2 "Simulated network error" (by decide)⟩

/-! ## C3: absent or empty entries yield the no-meal message -/

/-- C3.  If the week's meal-plan document is absent, or its entry for
the current weekday is missing, or that entry is a string whose
comma-split list is empty or has the empty string as first element,
then `get_today_meal` returns exactly
`"No meal planned for {weekday}, {date}"`. -/
theorem no_meal_planned (env : LookupEnv)
    (h : env.fetchMealPlan (get_week_range env.today) = .ok none ∨
      ∃ doc, env.fetchMealPlan (get_week_range env.today) = .ok (some doc) ∧
        (doc.lookup (weekday_name env.today) = none ∨
          ∃ s, doc.lookup (weekday_name env.today) = some (.str s) ∧
            (pySplit s = [] ∨ (pySplit s).head? = some ""))) :
    get_today_meal env =
      "No meal planned for " ++ weekday_name env.today ++ ", " ++ format_date env.today := by
  rcases h with h | ⟨doc, hdoc, hmiss | ⟨s, hs, hsplit⟩⟩
  · simp [get_today_meal, get_today_meal_exc, h]
  · have he : dictGetEntry doc (weekday_name env.today) = .str "" := by
      simp [dictGetEntry, hmiss]
    have h0 : pySplit "" = [""] := rfl
    simp [get_today_meal, get_today_meal_exc, hdoc, he, pySplitComma, h0, guardEmpty]
  · have he : dictGetEntry doc (weekday_name env.today) = .str s := by
      simp [dictGetEntry, hs]
    rcases hsplit with h0 | h0
    · simp [get_today_meal, get_today_meal_exc, hdoc, he, pySplitComma, h0, guardEmpty]
    · obtain ⟨rest, hrest⟩ : ∃ rest, pySplit s = "" :: rest := by
        cases hx : pySplit s with
        | nil => rw [hx] at h0; simp at h0
        | cons a r =>
          rw [hx] at h0
          simp only [List.head?_cons, Option.some.injEq] at h0
          exact ⟨r, by rw [h0]⟩
      simp [get_today_meal, get_today_meal_exc, hdoc, he, pySplitComma, hrest, guardEmpty]

/-- Witness for C3: no meal-plan document for the week of
March 12, 2025. -/
theorem no_meal_planned_witness :
    envNoPlan.fetchMealPlan (get_week_range envNoPlan.today) = .ok none ∧
    get_today_meal envNoPlan = "No meal planned for Wednesday, March 12, 2025" :=
  ⟨rfl, by rw [no_meal_planned envNoPlan (Or.inl rfl)]; rfl⟩

/-! ## C4: all ids resolving, one block per id in order -/

/-- C4.  When the weekday entry splits into ids (first non-empty) and
every id resolves to a recipe document carrying a name and ingredient
list, `get_today_meal` returns the header line followed by exactly one
`renderBlock` per id, in the original order — marker line with the
name, `Ingredients:` line, one bulleted line per ingredient in
sequence order, blank-line separator — with the whole message stripped
of surrounding whitespace, and no warning is logged. -/
theorem today_meal_all_resolve (env : LookupEnv) (doc : List (String × MealEntry))
    (s : String) (ids : List String) (nameOf : String → String)
    (ingsOf : String → List String)
    (hplan : env.fetchMealPlan (get_week_range env.today) = .ok (some doc))
    (hentry : dictGetEntry doc (weekday_name env.today) = .str s)
    (hids : pySplit s = ids)
    (hguard : guardEmpty ids = false)
    (hres : ∀ r ∈ ids, env.fetchRecipe r = .ok (some ⟨some (nameOf r), some (ingsOf r)⟩)) :
    get_today_meal env =
      pyStrip (headerLine env.today ++ "\n\n" ++
        concatS (ids.map fun r => renderBlock (nameOf r) (ingsOf r))) ∧
    (ids.map fun r => renderBlock (nameOf r) (ingsOf r)).length = ids.length ∧
    (get_today_meal_exc env).warnings = [] := by
  have hok : ∀ r ∈ ids, env.fetchRecipe r = .ok none ∨
      ∃ nm ings, env.fetchRecipe r = .ok (some ⟨some nm, some ings⟩) :=
    fun r hr => .inr ⟨nameOf r, ingsOf r, hres r hr⟩
  obtain ⟨h1, _, h3⟩ := get_today_meal_run env doc s ids hplan hentry hids hguard hok
  obtain ⟨hfm, hw⟩ := filterMap_resolveBlock_all env ids nameOf ingsOf hres
  refine ⟨?_, ?_, ?_⟩
  · rw [h1, hfm]
  · simp
  · rw [h3, hw]

/-- Witness for C4: Wednesday entry `r1,r2`, both recipes present. -/
theorem today_meal_all_resolve_witness :
    envAllResolve.fetchMealPlan (get_week_range envAllResolve.today) =
      .ok (some [("Wednesday", .str "r1,r2")]) ∧
    dictGetEntry [("Wednesday", .str "r1,r2")] (weekday_name envAllResolve.today) =
      .str "r1,r2" ∧
    pySplit "r1,r2" = ["r1", "r2"] ∧
    guardEmpty ["r1", "r2"] = false ∧
    (∀ r ∈ ["r1", "r2"], envAllResolve.fetchRecipe r =
      .ok (some ⟨some (if r = "r1" then "Oatmeal" else "Soup"),
        some (if r = "r1" then ["oats", "milk"] else ["water", "salt"])⟩)) ∧
    (get_today_meal envAllResolve =
      pyStrip (headerLine envAllResolve.today ++ "\n\n" ++
        concatS (["r1", "r2"].map fun r =>
          renderBlock (if r = "r1" then "Oatmeal" else "Soup")
            (if r = "r1" then ["oats", "milk"] else ["water", "salt"]))) ∧
    (["r1", "r2"].map fun r =>
      renderBlock (if r = "r1" then "Oatmeal" else "Soup")
        (if r = "r1" then ["oats", "milk"] else ["water", "salt"])).length =
      (["r1", "r2"] : List String).length ∧
    (get_today_meal_exc envAllResolve).warnings = []) :=
  ⟨by decide, by decide, by decide, by decide, by decide,
    today_meal_all_resolve envAllResolve [("Wednesday", .str "r1,r2")] "r1,r2"
      ["r1", "r2"]
      (fun r => if r = "r1" then "Oatmeal" else "Soup")
      (fun r => if r = "r1" then ["oats", "milk"] else ["water", "salt"])
      (by decide) (by decide) (by decide) (by decide) (by decide)⟩

/-! ## C5: one unresolvable id is skipped, the rest still rendered -/

/-- C5.  When exactly one id in the entry fails to resolve (the store
reports the recipe document missing), `get_today_meal` still returns
normally: the output has one block per remaining id in the original
order (N-1 blocks for N ids), and the warning `Recipe {id} not found`
is logged for the missing one. -/
theorem today_meal_one_missing (env : LookupEnv) (doc : List (String × MealEntry))
    (s : String) (pre post : List String) (bad : String)
    (nameOf : String → String) (ingsOf : String → List String)
    (hplan : env.fetchMealPlan (get_week_range env.today) = .ok (some doc))
    (hentry : dictGetEntry doc (weekday_name env.today) = .str s)
    (hids : pySplit s = pre ++ bad :: post)
    (hguard : guardEmpty (pre ++ bad :: post) = false)
    (hbad : env.fetchRecipe bad = .ok none)
    (hres : ∀ r ∈ pre ++ post,
      env.fetchRecipe r = .ok (some ⟨some (nameOf r), some (ingsOf r)⟩)) :
    get_today_meal env =
      pyStrip (headerLine env.today ++ "\n\n" ++
        concatS ((pre ++ post).map fun r => renderBlock (nameOf r) (ingsOf r))) ∧
    ((pre ++ post).map fun r => renderBlock (nameOf r) (ingsOf r)).length + 1 =
      (pre ++ bad :: post).length ∧
    (get_today_meal_exc env).warnings = ["Recipe " ++ bad ++ " not found"] := by
  have hpre := filterMap_resolveBlock_all env pre nameOf ingsOf
    (fun r hr => hres r (List.mem_append.mpr (.inl hr)))
  have hpost := filterMap_resolveBlock_all env post nameOf ingsOf
    (fun r hr => hres r (List.mem_append.mpr (.inr hr)))
  have hok : ∀ r ∈ pre ++ bad :: post, env.fetchRecipe r = .ok none ∨
      ∃ nm ings, env.fetchRecipe r = .ok (some ⟨some nm, some ings⟩) := by
    intro r hr
    rcases List.mem_append.mp hr with hp | hm
    · exact .inr ⟨nameOf r, ingsOf r, hres r (List.mem_append.mpr (.inl hp))⟩
    · rcases List.mem_cons.mp hm with rfl | hp
      · exact .inl hbad
      · exact .inr ⟨nameOf r, ingsOf r, hres r (List.mem_append.mpr (.inr hp))⟩
  obtain ⟨h1, _, h3⟩ := get_today_meal_run env doc s _ hplan hentry hids hguard hok
  refine ⟨?_, ?_, ?_⟩
  · rw [h1]
    simp [List.filterMap_append, List.filterMap_cons, resolveBlock, hbad,
      hpre.1, hpost.1, List.map_append]
  · simp
    omega
  · rw [h3]
    simp [List.filterMap_append, List.filterMap_cons, warningOf, hbad,
      hpre.2, hpost.2]

/-- Witness for C5: the specification's worked scenario — entry
`r1,r2`, `r1` is Oatmeal, `r2` missing. -/
theorem today_meal_one_missing_witness :
    envOneMissing.fetchMealPlan (get_week_range envOneMissing.today) =
      .ok (some [("Wednesday", .str "r1,r2")]) ∧
    dictGetEntry [("Wednesday", .str "r1,r2")] (weekday_name envOneMissing.today) =
      .str "r1,r2" ∧
    pySplit "r1,r2" = ["r1"] ++ "r2" :: [] ∧
    guardEmpty (["r1"] ++ "r2" :: []) = false ∧
    envOneMissing.fetchRecipe "r2" = .ok none ∧
    (∀ r ∈ ["r1"] ++ ([] : List String), envOneMissing.fetchRecipe r =
      .ok (some ⟨some "Oatmeal", some ["oats", "milk"]⟩)) ∧
    (get_today_meal envOneMissing =
      pyStrip (headerLine envOneMissing.today ++ "\n\n" ++
        concatS ((["r1"] ++ []).map fun _ => renderBlock "Oatmeal" ["oats", "milk"])) ∧
    ((["r1"] ++ []).map fun _ => renderBlock "Oatmeal" ["oats", "milk"]).length + 1 =
      (["r1"] ++ "r2" :: []).length ∧
    (get_today_meal_exc envOneMissing).warnings = ["Recipe " ++ "r2" ++ " not found"]) :=
  ⟨by decide, by decide, by decide, by decide, by decide, by decide,
    today_meal_one_missing envOneMissing [("Wednesday", .str "r1,r2")] "r1,r2"
      ["r1"] [] "r2" (fun _ => "Oatmeal") (fun _ => ["oats", "milk"])
      (by decide) (by decide) (by decide) (by decide) (by decide) (by decide)⟩

/-! ## C9: which recipe ids are fetched

The claim says only the non-empty ids are fetched.  The loop
`for recipe_id in recipe_ids` in the source has no emptiness filter: it
calls `db.collection('recipes').document(recipe_id)` for every element
of the comma-split list, empty strings included.  The guard before the
loop only inspects the first element.
-/

/-- Counterexample to C9 as stated: with Wednesday entry `a,` — whose
comma-split list `["a", ""]` has non-empty first element — the fetch
trace is `["a", ""]`: the empty-string id is fetched from the store,
and (the store resolving it) its block even appears in the output. -/
theorem recipe_fetch_counterexample :
    dictGetEntry [("Wednesday", .str "a,")] (weekday_name envEmptyId.today) =
      .str "a," ∧
    pySplit "a," = ["a", ""] ∧
    guardEmpty ["a", ""] = false ∧
    (get_today_meal_exc envEmptyId).fetched = ["a", ""] ∧
    "" ∈ (get_today_meal_exc envEmptyId).fetched := by
  refine ⟨by decide, by decide, by decide, by decide, by decide⟩

/-- C9 as amended.  On the populated-entry path, when no recipe fetch
raises, `get_today_meal` fetches a recipe document for every id of the
comma-split list — empty-string ids included — in the order given. -/
theorem recipe_fetch_trace (env : LookupEnv) (doc : List (String × MealEntry))
    (s : String) (ids : List String)
    (hplan : env.fetchMealPlan (get_week_range env.today) = .ok (some doc))
    (hentry : dictGetEntry doc (weekday_name env.today) = .str s)
    (hids : pySplit s = ids)
    (hguard : guardEmpty ids = false)
    (hok : ∀ r ∈ ids, env.fetchRecipe r = .ok none ∨
      ∃ nm ings, env.fetchRecipe r = .ok (some ⟨some nm, some ings⟩)) :
    (get_today_meal_exc env).fetched = ids :=
  (get_today_meal_run env doc s ids hplan hentry hids hguard hok).2.1

/-- Witness for the amended C9, at the counterexample's store. -/
theorem recipe_fetch_trace_witness :
    envEmptyId.fetchMealPlan (get_week_range envEmptyId.today) =
      .ok (some [("Wednesday", .str "a,")]) ∧
    dictGetEntry [("Wednesday", .str "a,")] (weekday_name envEmptyId.today) =
      .str "a," ∧
    pySplit "a," = ["a", ""] ∧
    guardEmpty ["a", ""] = false ∧
    (∀ r ∈ ["a", ""], envEmptyId.fetchRecipe r = .ok none ∨
      ∃ nm ings, envEmptyId.fetchRecipe r = .ok (some ⟨some nm, some ings⟩)) ∧
    (get_today_meal_exc envEmptyId).fetched = ["a", ""] :=
  ⟨by decide, by decide, by decide, by decide,
    by
      intro r hr
      simp only [List.mem_cons, List.not_mem_nil, or_false] at hr
      rcases hr with rfl | rfl
      · exact .inr ⟨"Rice", ["rice"], by decide⟩
      · exact .inr ⟨"Ghost", ["boo"], by decide⟩,
    recipe_fetch_trace envEmptyId [("Wednesday", .str "a,")] "a," ["a", ""]
      (by decide) (by decide) (by decide) (by decide)
      (by
        intro r hr
        simp only [List.mem_cons, List.not_mem_nil, or_false] at hr
        rcases hr with rfl | rfl
        · exact .inr ⟨"Rice", ["rice"], by decide⟩
        · exact .inr ⟨"Ghost", ["boo"], by decide⟩)⟩

/-! ## C10: populated entry, nothing resolves — bare header -/

/-- C10.  When the entry's first comma-split id is non-empty but no id
resolves, `get_today_meal` returns exactly the trimmed header line,
with no recipe blocks; in particular it returns neither the no-meal
message nor an error string. -/
theorem today_meal_header_only (env : LookupEnv) (doc : List (String × MealEntry))
    (s : String) (ids : List String)
    (hplan : env.fetchMealPlan (get_week_range env.today) = .ok (some doc))
    (hentry : dictGetEntry doc (weekday_name env.today) = .str s)
    (hids : pySplit s = ids)
    (hguard : guardEmpty ids = false)
    (hnone : ∀ r ∈ ids, env.fetchRecipe r = .ok none) :
    get_today_meal env = headerLine env.today ∧
    get_today_meal env ≠
      "No meal planned for " ++ weekday_name env.today ++ ", " ++ format_date env.today ∧
    ∀ details, get_today_meal env ≠ "Error getting meal information: " ++ details := by
  have hok : ∀ r ∈ ids, env.fetchRecipe r = .ok none ∨
      ∃ nm ings, env.fetchRecipe r = .ok (some ⟨some nm, some ings⟩) :=
    fun r hr => .inl (hnone r hr)
  obtain ⟨h1, _, _⟩ := get_today_meal_run env doc s ids hplan hentry hids hguard hok
  have hfm : ids.filterMap (resolveBlock env) = [] := by
    rw [List.filterMap_eq_nil_iff]
    intro r hr
    simp [resolveBlock, hnone r hr]
  have hmain : get_today_meal env = headerLine env.today := by
    rw [h1, hfm, concatS_nil, String.append_empty, pyStrip_header]
  refine ⟨hmain, ?_, ?_⟩
  · rw [hmain]
    exact string_ne_of_head _ _ (by rw [headerLine_head, noMeal_head]; decide)
  · intro details
    rw [hmain]
    exact string_ne_of_head _ _ (by rw [headerLine_head, errorMsg_head]; decide)

/-- Witness for C10: Wednesday entry `r1,r2`, neither recipe found. -/
theorem today_meal_header_only_witness :
    envNoneResolve.fetchMealPlan (get_week_range envNoneResolve.today) =
      .ok (some [("Wednesday", .str "r1,r2")]) ∧
    dictGetEntry [("Wednesday", .str "r1,r2")] (weekday_name envNoneResolve.today) =
      .str "r1,r2" ∧
    pySplit "r1,r2" = ["r1", "r2"] ∧
    guardEmpty ["r1", "r2"] = false ∧
    (∀ r ∈ ["r1", "r2"], envNoneResolve.fetchRecipe r = .ok none) ∧
    get_today_meal envNoneResolve = "🍽️ Today\x27s Meal (Wednesday, March 12, 2025):" :=
  ⟨by decide, by decide, by decide, by decide, by decide,
    by
      rw [(today_meal_header_only envNoneResolve [("Wednesday", .str "r1,r2")]
        "r1,r2" ["r1", "r2"] (by decide) (by decide) (by decide) (by decide)
        (by decide)).1]
      rfl⟩

/-! ## C7: messaging failure modes

The claim says network failure, a non-2xx send response, and an empty
update list all surface as raised errors.  The source never inspects
the response's status code (`requests.post` does not raise on non-2xx
and no `raise_for_status` is called): a completed non-2xx response is
returned as a normal value.  Network failure and the empty update list
do surface as raised errors, and no request is retried.
-/

/-- Counterexample to C7 as stated: a send request that completes with
HTTP status 500 does not surface as a raised error —
`send_telegram_message` returns the parsed body as a normal value. -/
theorem send_message_counterexample :
    tgEnv500.sendMessage 42 "hello" = .ok (500, "telegram-error-body") ∧
    send_telegram_message tgEnv500 "hello" =
      (.ok "telegram-error-body", [.getUpdatesCall, .sendMessageCall 42 "hello"]) :=
  ⟨rfl, rfl⟩

/-- C7 as amended.  A raised network error during `getUpdates`, an
empty update list, and a raised error during the send all surface to
the caller as raised errors; a completed send response is returned as a
normal value whatever its HTTP status; and no HTTP request is issued
more than once (no retry). -/
theorem send_message_error_surface (env : TgEnv) (msg : String) :
    (∀ e, env.getUpdates = .error e →
      send_telegram_message env msg = (.error e, [.getUpdatesCall])) ∧
    (env.getUpdates = .ok [] →
      send_telegram_message env msg = (.error chat_id_error_msg, [.getUpdatesCall])) ∧
    (∀ cid, get_real_chat_id env = .ok cid →
      (∀ e, env.sendMessage cid msg = .error e →
        send_telegram_message env msg =
          (.error e, [.getUpdatesCall, .sendMessageCall cid msg])) ∧
      ∀ st body, env.sendMessage cid msg = .ok (st, body) →
        send_telegram_message env msg =
          (.ok body, [.getUpdatesCall, .sendMessageCall cid msg])) ∧
    (send_telegram_message env msg).2.count .getUpdatesCall ≤ 1 ∧
    ∀ cid t, (send_telegram_message env msg).2.count (.sendMessageCall cid t) ≤ 1 := by
  have htrace : (send_telegram_message env msg).2 = [.getUpdatesCall] ∨
      ∃ cid, (send_telegram_message env msg).2 =
        [.getUpdatesCall, .sendMessageCall cid msg] := by
    rcases h1 : get_real_chat_id env with e | cid
    · left; simp [send_telegram_message, h1]
    · right
      refine ⟨cid, ?_⟩
      rcases h2 : env.sendMessage cid msg with e | sb <;>
        simp [send_telegram_message, h1, h2]
  refine ⟨?_, ?_, ?_, ?_, ?_⟩
  · intro e h; simp [send_telegram_message, get_real_chat_id, h]
  · intro h; simp [send_telegram_message, get_real_chat_id, h]
  · intro cid hcid
    constructor
    · intro e h; simp [send_telegram_message, hcid, h]
    · intro st body h; simp [send_telegram_message, hcid, h]
  · rcases htrace with h | ⟨cid, h⟩ <;>
      simp [h, List.count_cons, List.count_nil]
  · intro cid t
    rcases htrace with h | ⟨cid2, h⟩ <;>
      · simp only [h, List.count_cons, List.count_nil]
        split <;> simp

/-- Witness for the amended C7: a network failure during `getUpdates`
surfaces as the raised error, after a single HTTP call. -/
theorem send_message_error_surface_witness :
    tgEnvNetFail.getUpdates = .error "Connection refused" ∧
    send_telegram_message tgEnvNetFail "meal" =
      (.error "Connection refused", [.getUpdatesCall]) :=
  ⟨rfl, (send_message_error_surface tgEnvNetFail "meal").1 "Connection refused" rfl⟩

/-! ## C8: the daily job survives messaging failures -/

/-- C8.  For every exception `e` raised by the messaging send inside
`send_daily_meal`, the function logs
`Error sending daily meal notification: {e}`, attempts exactly one
secondary send whose text is that error description prefixed with
`"❌ "`, logs (rather than propagates) any failure of the secondary
send, and — being a total function — never raises outward. -/
theorem send_daily_meal_error_flow (env : NotifierEnv) (e : String)
    (h : env.send (get_today_meal env.lookup) = .error e) :
    (send_daily_meal env).sends =
      [get_today_meal env.lookup,
        "❌ " ++ ("Error sending daily meal notification: " ++ e)] ∧
    ("Error sending daily meal notification: " ++ e) ∈ (send_daily_meal env).logs ∧
    ∀ e₂, env.send ("❌ " ++ ("Error sending daily meal notification: " ++ e)) = .error e₂ →
      "Failed to send error notification" ∈ (send_daily_meal env).logs := by
  rcases h2 : env.send ("❌ " ++ ("Error sending daily meal notification: " ++ e))
      with e₂ | u <;>
    refine ⟨?_, ?_, ?_⟩ <;>
    simp [send_daily_meal, h, h2]

/-- Witness for C8: a messaging send that always raises `HTTP 500`. -/
theorem send_daily_meal_error_flow_witness :
    envSendFail.send (get_today_meal envSendFail.lookup) = .error "HTTP 500" ∧
    ((send_daily_meal envSendFail).sends =
      [get_today_meal envSendFail.lookup,
        "❌ " ++ ("Error sending daily meal notification: " ++ "HTTP 500")] ∧
    ("Error sending daily meal notification: " ++ "HTTP 500") ∈
      (send_daily_meal envSendFail).logs ∧
    ∀ e₂, envSendFail.send
        ("❌ " ++ ("Error sending daily meal notification: " ++ "HTTP 500")) = .error e₂ →
      "Failed to send error notification" ∈ (send_daily_meal envSendFail).logs) :=
  ⟨rfl, send_daily_meal_error_flow envSendFail "HTTP 500" rfl⟩

end MealPlanner
